import Mathlib

/-!
Verification of the rendering-orchestration core of this repository:
the orbit camera viewport (src/core/viewports/orbit-viewport.js) and the
layer draw orchestrator (src/core/lib/draw-layers.js).

The embedding is shallow.  Number-valued JS computations are modelled over
exact fields: the pixel projection / unprojection transforms over the
rationals so that concrete instances can be evaluated by the kernel, and
the orbit camera matrix construction over the reals because it involves
trigonometric functions.  Code of the repository that is referenced but
not among the provided sources (the Viewport base class, transformVector
from the math utilities, and the matrix utility layer) is modelled from
the spec; every such definition carries a doc comment saying so.
-/

namespace DeckGL

/-! ### Pixel projection transforms (Viewport base class), over ℚ -/

abbrev Mat4Q := Matrix (Fin 4) (Fin 4) ℚ
abbrev Vec4Q := Fin 4 → ℚ
abbrev Vec3Q := Fin 3 → ℚ

/-- Modelled from the spec: transformVector (Matrix Utilities, spec 4.1 and
4.2) applies a 4x4 matrix to a homogeneous 4-vector and divides every
component by the resulting w component (the source lives in
src/core/math/utils.js, which is not among the provided source files). -/
def transformVector (m : Mat4Q) (v : Vec4Q) : Vec4Q :=
  fun i => m.mulVec v i / m.mulVec v 3

/-- Modelled from the spec: the Viewport base class (spec 4.2) holds a pixel
height together with the derived pixelProjectionMatrix (world to pixel) and
pixelUnprojectionMatrix (its matrix inverse).  The base class source
(src/core/viewports/viewport.js) is not among the provided source files, so
the inverse relationship between the two matrices is not baked in here; it is
taken as an explicit hypothesis in the round-trip theorem. -/
structure ViewTransform where
  height : ℚ
  pixelProjectionMatrix : Mat4Q
  pixelUnprojectionMatrix : Mat4Q

/-- Embeds OrbitViewport.project (orbit-viewport.js lines 81-87): transform
the homogeneous world point by the pixel projection matrix, then optionally
flip the y coordinate to a top-left origin. -/
def ViewTransform.project (vt : ViewTransform) (xyz : Vec3Q) (topLeft : Bool) :
    Vec3Q :=
  let v := transformVector vt.pixelProjectionMatrix ![xyz 0, xyz 1, xyz 2, 1]
  ![v 0, if topLeft then vt.height - v 1 else v 1, v 2]

/-- Embeds OrbitViewport.unproject (orbit-viewport.js lines 89-94): optionally
flip the y coordinate of the input pixel point, then transform by the pixel
unprojection matrix.  Like the source, this returns the full homogeneous
4-vector produced by transformVector. -/
def ViewTransform.unproject (vt : ViewTransform) (xyz : Vec3Q) (topLeft : Bool) :
    Vec4Q :=
  let y2 := if topLeft then vt.height - xyz 1 else xyz 1
  transformVector vt.pixelUnprojectionMatrix ![xyz 0, y2, xyz 2, 1]

/-! ### Orbit camera matrix construction, over ℝ -/

noncomputable section

abbrev Mat4R := Matrix (Fin 4) (Fin 4) ℝ
abbrev Vec3R := Fin 3 → ℝ

/-- Embeds createMat4 (orbit-viewport.js lines 17-19): the 4x4 identity. -/
def createMat4 : Mat4R := 1

/-- Canonical rotation matrix about the x axis by the given angle in radians
(column-vector convention). -/
def rotXMat (t : ℝ) : Mat4R :=
  Matrix.of
    ![![1, 0, 0, 0],
      ![0, Real.cos t, -Real.sin t, 0],
      ![0, Real.sin t, Real.cos t, 0],
      ![0, 0, 0, 1]]

/-- Canonical rotation matrix about the y axis by the given angle in radians. -/
def rotYMat (t : ℝ) : Mat4R :=
  Matrix.of
    ![![Real.cos t, 0, Real.sin t, 0],
      ![0, 1, 0, 0],
      ![-Real.sin t, 0, Real.cos t, 0],
      ![0, 0, 0, 1]]

/-- Canonical rotation matrix about the z axis by the given angle in radians. -/
def rotZMat (t : ℝ) : Mat4R :=
  Matrix.of
    ![![Real.cos t, -Real.sin t, 0, 0],
      ![Real.sin t, Real.cos t, 0, 0],
      ![0, 0, 1, 0],
      ![0, 0, 0, 1]]

/-- Canonical axis-aligned scale matrix. -/
def scaleMat (v : Vec3R) : Mat4R :=
  Matrix.of
    ![![v 0, 0, 0, 0],
      ![0, v 1, 0, 0],
      ![0, 0, v 2, 0],
      ![0, 0, 0, 1]]

/-- Canonical translation matrix. -/
def translateMat (v : Vec3R) : Mat4R :=
  Matrix.of
    ![![1, 0, 0, v 0],
      ![0, 1, 0, v 1],
      ![0, 0, 1, v 2],
      ![0, 0, 0, 1]]

/-- Modelled from the spec: the rotateX matrix utility (spec 4.1): rotating a
matrix about the x axis post-multiplies it by the canonical rotation, so that
the rotation acts on vectors first.  The utility comes from the gl-mat4
dependency, not among the provided source files. -/
def mat4_rotateX (a : Mat4R) (rad : ℝ) : Mat4R := a * rotXMat rad

/-- Modelled from the spec: the rotateY matrix utility (spec 4.1), as a
post-multiplication by the canonical rotation about the y axis. -/
def mat4_rotateY (a : Mat4R) (rad : ℝ) : Mat4R := a * rotYMat rad

/-- Modelled from the spec: the rotateZ matrix utility (spec 4.1), as a
post-multiplication by the canonical rotation about the z axis. -/
def mat4_rotateZ (a : Mat4R) (rad : ℝ) : Mat4R := a * rotZMat rad

/-- Modelled from the spec: the scale matrix utility (spec 4.1), as a
post-multiplication by the canonical axis-aligned scale. -/
def mat4_scale (a : Mat4R) (v : Vec3R) : Mat4R := a * scaleMat v

/-- Modelled from the spec: the translate matrix utility (spec 4.1), as a
post-multiplication by the canonical translation. -/
def mat4_translate (a : Mat4R) (v : Vec3R) : Mat4R := a * translateMat v

/-- Modelled from the spec: the perspective matrix utility (spec 4.1, 4.3),
the standard symmetric-frustum perspective projection determined by vertical
field of view (radians), aspect ratio, and near/far plane distances. -/
def mat4_perspective (fovy aspect near far : ℝ) : Mat4R :=
  let f := 1 / Real.tan (fovy / 2)
  Matrix.of
    ![![f / aspect, 0, 0, 0],
      ![0, f, 0, 0],
      ![0, 0, (far + near) / (near - far), 2 * far * near / (near - far)],
      ![0, 0, -1, 0]]

/-- Modelled from the spec: the lookAt matrix utility (spec 4.1, 4.3), the
standard view matrix placing the eye at the given position looking at the
given center with the given up direction: orthonormal camera axes as rows,
with translation carrying the eye to the origin. -/
def mat4_lookAt (eye center up : Vec3R) : Mat4R :=
  let f0 := eye 0 - center 0
  let f1 := eye 1 - center 1
  let f2 := eye 2 - center 2
  let fl := Real.sqrt (f0 ^ 2 + f1 ^ 2 + f2 ^ 2)
  let z0 := f0 / fl
  let z1 := f1 / fl
  let z2 := f2 / fl
  let s0 := up 1 * z2 - up 2 * z1
  let s1 := up 2 * z0 - up 0 * z2
  let s2 := up 0 * z1 - up 1 * z0
  let sl := Real.sqrt (s0 ^ 2 + s1 ^ 2 + s2 ^ 2)
  let x0 := s0 / sl
  let x1 := s1 / sl
  let x2 := s2 / sl
  let y0 := z1 * x2 - z2 * x1
  let y1 := z2 * x0 - z0 * x2
  let y2 := z0 * x1 - z1 * x0
  Matrix.of
    ![![x0, x1, x2, -(x0 * eye 0 + x1 * eye 1 + x2 * eye 2)],
      ![y0, y1, y2, -(y0 * eye 0 + y1 * eye 1 + y2 * eye 2)],
      ![z0, z1, z2, -(z0 * eye 0 + z1 * eye 1 + z2 * eye 2)],
      ![0, 0, 0, 1]]

/-- Argument record of the OrbitViewport constructor (orbit-viewport.js lines
26-42), with the source's default values. -/
structure OrbitViewportArgs where
  width : ℝ
  height : ℝ
  distance : ℝ
  rotationX : ℝ := 0
  rotationOrbit : ℝ := 0
  orbitAxis : String := "Z"
  lookAt : Vec3R := ![0, 0, 0]
  up : Vec3R := ![0, 1, 0]
  fov : ℝ := 75
  near : ℝ := 1
  far : ℝ := 100
  zoom : ℝ := 1

/-- An OrbitViewport value: the matrices delegated to the Viewport base class
plus the parameters the constructor stores on the instance (orbit-viewport.js
lines 59-78). -/
structure OrbitViewport where
  viewMatrix : Mat4R
  projectionMatrix : Mat4R
  width : ℝ
  height : ℝ
  distance : ℝ
  rotationX : ℝ
  rotationOrbit : ℝ
  orbitAxis : String
  lookAt : Vec3R
  up : Vec3R
  fov : ℝ
  near : ℝ
  far : ℝ
  zoom : ℝ

/-- Embeds the OrbitViewport constructor (orbit-viewport.js lines 26-79).
The in-place gl-mat4 calls of the source are written out as the matrix values
they produce.  The source contains no validation and no throwing operation:
every branch completes and stores the computed matrices and the given
parameters. -/
def mkOrbitViewport (a : OrbitViewportArgs) : OrbitViewport :=
  let rotationMatrix := mat4_rotateX createMat4 (-a.rotationX / 180 * Real.pi)
  let rotationMatrix :=
    if a.orbitAxis = "Z" then
      mat4_rotateZ rotationMatrix (-a.rotationOrbit / 180 * Real.pi)
    else
      mat4_rotateY rotationMatrix (-a.rotationOrbit / 180 * Real.pi)
  let translateMatrix :=
    mat4_translate (mat4_scale createMat4 ![a.zoom, a.zoom, a.zoom])
      ![-a.lookAt 0, -a.lookAt 1, -a.lookAt 2]
  let viewMatrix := mat4_lookAt ![0, 0, a.distance] ![0, 0, 0] a.up
  let fovRadians := a.fov * (Real.pi / 180)
  let aspect := a.width / a.height
  let perspectiveMatrix := mat4_perspective fovRadians aspect a.near a.far
  { viewMatrix := viewMatrix * (rotationMatrix * translateMatrix)
    projectionMatrix := perspectiveMatrix
    width := a.width
    height := a.height
    distance := a.distance
    rotationX := a.rotationX
    rotationOrbit := a.rotationOrbit
    orbitAxis := a.orbitAxis
    lookAt := a.lookAt
    up := a.up
    fov := a.fov
    near := a.near
    far := a.far
    zoom := a.zoom }

/-- The OrbitViewport constructor with its outcome made explicit: the source
constructor (orbit-viewport.js lines 26-79) contains no validation and no
throwing path (in particular it never inspects orbitAxis beyond the
two-way branch on the string "Z"), so construction always succeeds.  An
InvalidArgument failure would appear here as Except.error; none exists. -/
def mkOrbitViewportExc (a : OrbitViewportArgs) : Except String OrbitViewport :=
  Except.ok (mkOrbitViewport a)

/-- Embeds OrbitViewport.fitBounds (orbit-viewport.js lines 100-135): take
the largest extent of the bounding box, recompute the camera distance from
the field of view, and construct a fresh OrbitViewport with every other
parameter copied.  The source also destructures translationX and
translationY, but those are not properties of the class (they are undefined)
and the constructor ignores them. -/
def OrbitViewport.fitBounds (v : OrbitViewport) (maxExtent : Vec3R) :
    OrbitViewport :=
  let size := Max.max (Max.max (maxExtent 0) (maxExtent 1)) (maxExtent 2)
  let newDistance := size / Real.tan (v.fov / 180 * Real.pi / 2)
  mkOrbitViewport
    { width := v.width
      height := v.height
      rotationX := v.rotationX
      rotationOrbit := v.rotationOrbit
      orbitAxis := v.orbitAxis
      lookAt := v.lookAt
      up := v.up
      fov := v.fov
      near := v.near
      far := v.far
      zoom := v.zoom
      distance := newDistance }

end

/-! ### Draw orchestration (draw-layers.js) -/

/-- Parameter values stored in GPU parameter maps; the claims only inspect
numeric-array values (viewport rectangles and blend colors), so a value is a
list of exact rationals. -/
abbrev PValue := List ℚ

/-- A GPU parameter store: a partial map from parameter names to values. -/
abbrev GPUState := String → Option PValue

/-- A parameter object, as an association list in which the first binding of
a key wins (mirroring a JS object built by Object.assign, where later
assignments were placed in front). -/
abbrev ParamList := List (String × PValue)

/-- First-match association-list lookup. -/
def alookup {β : Type} (k : String) : List (String × β) → Option β
  | [] => none
  | (k', v) :: rest => if k = k' then some v else alookup k rest

/-- The subset of layer props read by the orchestrator: the visible flag, the
pickable flag, and the optional custom parameter map (draw-layers.js lines
179-181 and 233). -/
structure LayerProps where
  visible : Bool
  pickable : Bool
  parameters : Option ParamList

/-- A layer as seen by the orchestrator (an external collaborator, spec
section 6): props, the composite flag, and the drawLayer operation.  The draw
operation receives the resolved layer parameters, may update the GPU state,
and may fail with an error of type E (modelling a thrown JS exception). -/
structure Layer (E : Type) where
  props : LayerProps
  isComposite : Bool
  draw : ParamList → GPUState → GPUState × Option E

/-- A viewport rectangle in logical CSS pixels, the part of a viewport the
orchestrator reads when computing the device-pixel rectangle. -/
structure VPRect where
  x : ℚ
  y : ℚ
  width : ℚ
  height : ℚ

/-- Embeds getPixelRatio (draw-layers.js lines 31-34): when the flag is set
and a window with a device pixel ratio exists, use it, else 1.  The precondition
that the flag be a boolean is enforced by the type. -/
def getPixelRatio (useDevicePixelRatio : Bool) (devicePixelRatio : Option ℚ) : ℚ :=
  if useDevicePixelRatio then devicePixelRatio.getD 1 else 1

/-- Embeds getGLViewport (draw-layers.js lines 37-48): scale the logical
rectangle by the pixel ratio and flip y to a bottom-up device origin; the
canvas client height defaults to 100 when there is no canvas. -/
def getGLViewport (canvas : Option ℚ) (vp : VPRect) (pixelRatio : ℚ) : PValue :=
  let height := canvas.getD 100
  [vp.x * pixelRatio, (height - vp.y - vp.height) * pixelRatio,
    vp.width * pixelRatio, vp.height * pixelRatio]

/-- Embeds the per-layer draw test of drawLayersInViewport (draw-layers.js
lines 178-185): start from the visible flag, require pickable additionally on
a picking pass, and finally consult the layer filter (which receives the
layer, the viewport and the picking flag) only when the layer is still
eligible. -/
def shouldDrawLayer {E : Type} (drawPickingColors : Bool)
    (layerFilter : Option (Layer E → VPRect → Bool → Bool))
    (viewport : VPRect) (layer : Layer E) : Bool :=
  let sd := layer.props.visible
  let sd := if drawPickingColors then sd && layer.props.pickable else sd
  match layerFilter with
  | some f => if sd then f layer viewport drawPickingColors else sd
  | none => sd

/-- Applying a parameter object to the GPU state sets every key it binds and
leaves the rest of the state alone (setParameters of the luma.gl binding
layer, an external collaborator per spec section 6). -/
def applyParams (ps : ParamList) (s : GPUState) : GPUState :=
  fun k =>
    match alookup k ps with
    | some v => some v
    | none => s k

/-- Writing back a saved snapshot of previous values over the state: every
key recorded in the snapshot is restored to its recorded (optional) previous
value. -/
def restoreParams (prev : List (String × Option PValue)) (s : GPUState) : GPUState :=
  fun k =>
    match alookup k prev with
    | some ov => ov
    | none => s k

/-- Modelled from the spec: scoped parameter application (spec 4.4, 7 and the
glossary; the withParameters primitive of the luma.gl binding layer, an
external collaborator): record the previous values of the keys about to be
set, apply the parameters, run the callback, and restore the recorded values
unconditionally — also when the callback fails — while the failure itself is
passed through unchanged. -/
def withParameters {E : Type} (ps : ParamList)
    (cb : GPUState → GPUState × Option E) (s : GPUState) :
    GPUState × Option E :=
  let prev := ps.map (fun p => (p.1, s p.1))
  let r := cb (applyParams ps s)
  (restoreParams prev r.1, r.2)

/-- Embeds the parameter resolution of drawLayerInViewport (draw-layers.js
lines 231-246): merge the layer's own parameters with the pass parameters
(pass-level wins), then overwrite the viewport key with the device-pixel
rectangle, and on a picking pass overwrite the blend color to encode the
layer index plus one in the alpha channel.  In this list representation the
first binding of a key wins, so each later Object.assign of the source is a
binding placed in front. -/
def layerParameters {E : Type} (layer : Layer E) (layerIndex : ℕ)
    (drawPickingColors : Bool) (glViewport : PValue) (parameters : ParamList) :
    ParamList :=
  let lp := parameters ++ layer.props.parameters.getD []
  let lp := ("viewport", glViewport) :: lp
  if drawPickingColors then
    ("blendColor", [0, 0, 0, ((layerIndex : ℚ) + 1) / 255]) :: lp
  else lp

/-- Embeds drawLayerInViewport (draw-layers.js lines 212-255) restricted to
the data the claims are about: resolve the layer parameters and invoke the
layer's draw operation scoped to them.  The uniform and module-parameter
assembly of the source (lines 213-229 and 241) feeds values the claims do not
mention and is not modelled. -/
def drawLayerInViewport {E : Type} (layer : Layer E) (layerIndex : ℕ)
    (drawPickingColors : Bool) (glViewport : PValue) (parameters : ParamList)
    (s : GPUState) : GPUState × Option E :=
  let lp := layerParameters layer layerIndex drawPickingColors glViewport parameters
  withParameters lp (layer.draw lp) s

/-- A record of one invocation of a layer's draw operation: the index of the
layer in the input list and the resolved layer parameters it received. -/
structure DrawEvent where
  layerIndex : ℕ
  params : ParamList
deriving DecidableEq

/-- The render statistics of one per-viewport draw (draw-layers.js lines
164-169). -/
@[ext]
structure RenderStats where
  totalCount : ℕ
  visibleCount : ℕ
  compositeCount : ℕ
  pickableCount : ℕ
deriving DecidableEq

/-- The statistics value created at the start of a per-viewport draw
(draw-layers.js lines 164-169): totalCount starts at the number of layers,
the other three counters start at zero. -/
def initRenderStats {E : Type} (layers : List (Layer E)) : RenderStats :=
  { totalCount := layers.length
    visibleCount := 0
    compositeCount := 0
    pickableCount := 0 }

/-- The outcome of a per-viewport draw: final statistics, the trace of draw
invocations, the final GPU state, and the error of the first failing draw, if
any. -/
structure RunResult (E : Type) where
  stats : RenderStats
  events : List DrawEvent
  state : GPUState
  err : Option E

/-- The stats update performed for every layer (draw-layers.js lines
187-193): count it as pickable when it is eligible and pickable, and count it
as composite when it is composite. -/
def countStats {E : Type} (sd : Bool) (layer : Layer E) (stats : RenderStats) :
    RenderStats :=
  { stats with
    pickableCount :=
      stats.pickableCount + (if sd && layer.props.pickable then 1 else 0)
    compositeCount :=
      stats.compositeCount + (if layer.isComposite then 1 else 0) }

/-- The stats update performed for a drawn layer (draw-layers.js lines
198-200): count it as visible when it is not composite. -/
def countVisible {E : Type} (layer : Layer E) (stats : RenderStats) :
    RenderStats :=
  { stats with
    visibleCount := stats.visibleCount + (if layer.isComposite then 0 else 1) }

/-- The layer iteration of drawLayersInViewport (draw-layers.js lines
176-205): per layer, decide eligibility, update the statistics, and when
eligible draw the layer scoped to its resolved parameters.  A failing draw
aborts the iteration (a thrown JS exception propagates out of forEach) and is
reported in the result. -/
def runLayers {E : Type} (drawPickingColors : Bool)
    (layerFilter : Option (Layer E → VPRect → Bool → Bool)) (viewport : VPRect)
    (glViewport : PValue) (parameters : ParamList) :
    List (Layer E) → ℕ → RenderStats → GPUState → RunResult E
  | [], _, stats, s => ⟨stats, [], s, none⟩
  | layer :: rest, layerIndex, stats, s =>
    let sd := shouldDrawLayer drawPickingColors layerFilter viewport layer
    let stats := countStats sd layer stats
    if sd then
      let stats := countVisible layer stats
      let lp := layerParameters layer layerIndex drawPickingColors glViewport parameters
      let r := withParameters lp (layer.draw lp) s
      match r.2 with
      | some e => ⟨stats, [⟨layerIndex, lp⟩], r.1, some e⟩
      | none =>
        let rr := runLayers drawPickingColors layerFilter viewport glViewport
          parameters rest (layerIndex + 1) stats r.1
        ⟨rr.stats, ⟨layerIndex, lp⟩ :: rr.events, rr.state, rr.err⟩
    else
      runLayers drawPickingColors layerFilter viewport glViewport parameters
        rest (layerIndex + 1) stats s

/-- The device-pixel rectangle computed for a viewport, as drawLayersInViewport
computes it (draw-layers.js lines 160-161). -/
def glViewportOf (canvas : Option ℚ) (useDevicePixelRatio : Bool)
    (devicePixelRatio : Option ℚ) (vp : VPRect) : PValue :=
  getGLViewport canvas vp (getPixelRatio useDevicePixelRatio devicePixelRatio)

/-- Embeds drawLayersInViewport (draw-layers.js lines 149-210): compute the
device-pixel rectangle, create the statistics, apply the pass parameters
(unscoped, line 173), and iterate the layers from index 0.  The trailing
render-counter increment and stats logging (lines 207-209) only feed the log
line and are not modelled. -/
def drawLayersInViewport {E : Type} (canvas : Option ℚ)
    (useDevicePixelRatio : Bool) (devicePixelRatio : Option ℚ) (vp : VPRect)
    (drawPickingColors : Bool) (parameters : ParamList)
    (layerFilter : Option (Layer E → VPRect → Bool → Bool))
    (layers : List (Layer E)) (s : GPUState) : RunResult E :=
  let glViewport := glViewportOf canvas useDevicePixelRatio devicePixelRatio vp
  let stats := initRenderStats layers
  let s := applyParams parameters s
  runLayers drawPickingColors layerFilter vp glViewport parameters layers 0 stats s

/-- Embeds drawLayers (draw-layers.js lines 63-100) restricted to the data
the claims are about: run the per-viewport draw for each viewport in list
order, stopping when a draw fails and passing the failure through to the
caller unchanged.  The initial canvas clear and the onViewportActive callback
act only on external collaborators and are not modelled. -/
def drawLayers {E : Type} (canvas : Option ℚ) (useDevicePixelRatio : Bool)
    (devicePixelRatio : Option ℚ) (drawPickingColors : Bool)
    (parameters : ParamList)
    (layerFilter : Option (Layer E → VPRect → Bool → Bool))
    (layers : List (Layer E)) :
    List VPRect → GPUState → GPUState × Option E
  | [], s => (s, none)
  | vp :: rest, s =>
    let r := drawLayersInViewport canvas useDevicePixelRatio devicePixelRatio vp
      drawPickingColors parameters layerFilter layers s
    match r.err with
    | some e => (r.state, some e)
    | none =>
      drawLayers canvas useDevicePixelRatio devicePixelRatio drawPickingColors
        parameters layerFilter layers rest r.state

/-! ### Claim theorems -/

/-- C9: for every viewport and every world point, the y coordinate returned
by project with topLeft true equals the viewport height minus the y
coordinate returned by project with topLeft false. -/
theorem project_topLeft_flip (vt : ViewTransform) (xyz : Vec3Q) :
    vt.project xyz true 1 = vt.height - vt.project xyz false 1 := by
  simp [ViewTransform.project]

/-- C3: fitBounds returns a viewport whose distance is the largest extent of
the bounding box divided by the tangent of half the field of view in radians
(fov times pi over 360), while every other parameter is copied unchanged. -/
theorem fitBounds_correct (v : OrbitViewport) (maxExtent : Vec3R) :
    (v.fitBounds maxExtent).distance =
      Max.max (Max.max (maxExtent 0) (maxExtent 1)) (maxExtent 2) /
        Real.tan (v.fov * Real.pi / 360) ∧
    (v.fitBounds maxExtent).width = v.width ∧
    (v.fitBounds maxExtent).height = v.height ∧
    (v.fitBounds maxExtent).rotationX = v.rotationX ∧
    (v.fitBounds maxExtent).rotationOrbit = v.rotationOrbit ∧
    (v.fitBounds maxExtent).orbitAxis = v.orbitAxis ∧
    (v.fitBounds maxExtent).lookAt = v.lookAt ∧
    (v.fitBounds maxExtent).up = v.up ∧
    (v.fitBounds maxExtent).fov = v.fov ∧
    (v.fitBounds maxExtent).near = v.near ∧
    (v.fitBounds maxExtent).far = v.far ∧
    (v.fitBounds maxExtent).zoom = v.zoom := by
  have harg : v.fov / 180 * Real.pi / 2 = v.fov * Real.pi / 360 := by ring
  refine ⟨?_, rfl, rfl, rfl, rfl, rfl, rfl, rfl, rfl, rfl, rfl, rfl⟩
  show Max.max (Max.max (maxExtent 0) (maxExtent 1)) (maxExtent 2) /
      Real.tan (v.fov / 180 * Real.pi / 2) = _
  rw [harg]

/-- C6: the constructor builds the view matrix as the lookAt matrix for eye
[0,0,distance], target the origin and the given up vector, times the rotation
matrix (rotateX by minus rotationX degrees in radians composed with a
rotation about the orbit axis, z or y, by minus rotationOrbit degrees in
radians), times the translate matrix (scale by zoom composed with translation
by minus lookAt); the projection matrix is the perspective matrix for fov
converted to radians, aspect width over height, near and far. -/
theorem mkOrbitViewport_matrices (a : OrbitViewportArgs) :
    (mkOrbitViewport a).viewMatrix =
      mat4_lookAt ![0, 0, a.distance] ![0, 0, 0] a.up *
        ((rotXMat (-(a.rotationX * (Real.pi / 180))) *
          (if a.orbitAxis = "Z" then rotZMat (-(a.rotationOrbit * (Real.pi / 180)))
           else rotYMat (-(a.rotationOrbit * (Real.pi / 180))))) *
         (scaleMat ![a.zoom, a.zoom, a.zoom] *
          translateMat ![-a.lookAt 0, -a.lookAt 1, -a.lookAt 2])) ∧
    (mkOrbitViewport a).projectionMatrix =
      mat4_perspective (a.fov * (Real.pi / 180)) (a.width / a.height) a.near a.far := by
  have hx : -a.rotationX / 180 * Real.pi = -(a.rotationX * (Real.pi / 180)) := by
    ring
  have ho : -a.rotationOrbit / 180 * Real.pi = -(a.rotationOrbit * (Real.pi / 180)) := by
    ring
  constructor
  · by_cases hz : a.orbitAxis = "Z" <;>
      simp [mkOrbitViewport, mat4_rotateX, mat4_rotateY, mat4_rotateZ, mat4_scale,
        mat4_translate, createMat4, hz, hx, ho, one_mul, mul_assoc]
  · rfl

/-- Key algebraic fact behind the projection round trip: transforming a
homogeneous vector (with unit w component) by a matrix and then by a left
inverse of that matrix, with the homogeneous divide of transformVector after
each step, recovers the vector, provided the intermediate w component is
nonzero. -/
theorem transformVector_leftInverse (M Minv : Mat4Q) (p : Vec4Q)
    (hinv : Minv * M = 1) (hp3 : p 3 = 1) (hw : M.mulVec p 3 ≠ 0) :
    transformVector Minv (transformVector M p) = p := by
  have hc : (M.mulVec p 3)⁻¹ ≠ 0 := inv_ne_zero hw
  have hsmul : transformVector M p = (M.mulVec p 3)⁻¹ • M.mulVec p := by
    funext j
    simp [transformVector, div_eq_inv_mul]
  have hmm : Minv.mulVec (M.mulVec p) = p := by
    rw [Matrix.mulVec_mulVec, hinv, Matrix.one_mulVec]
  funext i
  simp only [transformVector, hsmul, Matrix.mulVec_smul, hmm, Pi.smul_apply,
    smul_eq_mul, hp3, mul_one]
  rw [mul_div_cancel_left₀ _ hc]

/-- C2: with matching topLeft option on both calls, unprojecting the
projection of a world point recovers the point exactly (hence with component
error zero, below any positive tolerance), whenever the stored unprojection
matrix is a left inverse of the pixel projection matrix (the well-conditioned
case) and the point's image has nonzero w (the point is not on the camera
plane, which holds inside the view frustum). -/
theorem unproject_project_roundtrip (vt : ViewTransform) (P : Vec3Q)
    (topLeft : Bool)
    (hinv : vt.pixelUnprojectionMatrix * vt.pixelProjectionMatrix = 1)
    (hw : vt.pixelProjectionMatrix.mulVec ![P 0, P 1, P 2, 1] 3 ≠ 0) :
    vt.unproject (vt.project P topLeft) topLeft 0 = P 0 ∧
    vt.unproject (vt.project P topLeft) topLeft 1 = P 1 ∧
    vt.unproject (vt.project P topLeft) topLeft 2 = P 2 := by
  have hp3 : (![P 0, P 1, P 2, 1] : Vec4Q) 3 = 1 := rfl
  have key := transformVector_leftInverse vt.pixelProjectionMatrix
    vt.pixelUnprojectionMatrix ![P 0, P 1, P 2, 1] hinv hp3 hw
  have ht3 : transformVector vt.pixelProjectionMatrix ![P 0, P 1, P 2, 1] 3 = 1 := by
    simp only [transformVector]
    exact div_self hw
  have hfeed : (![vt.project P topLeft 0,
      if topLeft then vt.height - vt.project P topLeft 1 else vt.project P topLeft 1,
      vt.project P topLeft 2, 1] : Vec4Q) =
      transformVector vt.pixelProjectionMatrix ![P 0, P 1, P 2, 1] := by
    funext i
    fin_cases i <;> cases topLeft <;>
      simp [ViewTransform.project, Matrix.cons_val_zero, Matrix.cons_val_one,
        Matrix.head_cons, Matrix.cons_val_two, Matrix.tail_cons,
        Matrix.cons_val_three, ht3, sub_sub_cancel]
  have hu : vt.unproject (vt.project P topLeft) topLeft =
      transformVector vt.pixelUnprojectionMatrix
        (transformVector vt.pixelProjectionMatrix ![P 0, P 1, P 2, 1]) := by
    show transformVector vt.pixelUnprojectionMatrix
      ![vt.project P topLeft 0,
        if topLeft then vt.height - vt.project P topLeft 1 else vt.project P topLeft 1,
        vt.project P topLeft 2, 1] = _
    rw [hfeed]
  rw [hu, key]
  exact ⟨rfl, rfl, rfl⟩

/-- Concrete pixel projection matrix for the round-trip witness. -/
def wM : Mat4Q :=
  Matrix.of ![![2, 0, 0, 3], ![0, -2, 0, 3], ![0, 0, 1, 0], ![0, 0, 1, 1]]

/-- Concrete inverse of the witness matrix. -/
def wMinv : Mat4Q :=
  Matrix.of
    ![![1/2, 0, 3/2, -3/2], ![0, -1/2, -3/2, 3/2], ![0, 0, 1, 0], ![0, 0, -1, 1]]

/-- Concrete viewport transform for the round-trip witness. -/
def wVT : ViewTransform :=
  { height := 600, pixelProjectionMatrix := wM, pixelUnprojectionMatrix := wMinv }

/-- The witness matrices really are an inverse pair. -/
theorem wMinv_mul_wM : wMinv * wM = 1 := by
  ext i j
  fin_cases i <;> fin_cases j <;>
    simp [wM, wMinv, Matrix.mul_apply, Fin.sum_univ_four, Matrix.one_apply,
      Matrix.vecHead, Matrix.vecTail] <;>
    norm_num

/-- The witness point has nonzero w image under the witness matrix. -/
theorem wM_w_ne_zero : wM.mulVec ![(1 : ℚ), 2, 3, 1] 3 ≠ 0 := by
  simp [wM, Matrix.mulVec, Matrix.dotProduct, Fin.sum_univ_four,
    Matrix.vecHead, Matrix.vecTail]
  norm_num

/-- C2 witness: the round trip evaluated at the concrete point (1, 2, 3) on a
concrete viewport transform with a genuine inverse pair of matrices. -/
theorem unproject_project_roundtrip_witness :
    (wVT.pixelUnprojectionMatrix * wVT.pixelProjectionMatrix = 1) ∧
    (wVT.pixelProjectionMatrix.mulVec
      ![(![1, 2, 3] : Vec3Q) 0, (![1, 2, 3] : Vec3Q) 1, (![1, 2, 3] : Vec3Q) 2, 1] 3 ≠ 0) ∧
    (wVT.unproject (wVT.project ![1, 2, 3] true) true 0 = (![1, 2, 3] : Vec3Q) 0 ∧
     wVT.unproject (wVT.project ![1, 2, 3] true) true 1 = (![1, 2, 3] : Vec3Q) 1 ∧
     wVT.unproject (wVT.project ![1, 2, 3] true) true 2 = (![1, 2, 3] : Vec3Q) 2) := by
  have hinv : wVT.pixelUnprojectionMatrix * wVT.pixelProjectionMatrix = 1 :=
    wMinv_mul_wM
  have hw : wVT.pixelProjectionMatrix.mulVec
      ![(![1, 2, 3] : Vec3Q) 0, (![1, 2, 3] : Vec3Q) 1, (![1, 2, 3] : Vec3Q) 2, 1] 3 ≠ 0 := by
    show wM.mulVec ![(1 : ℚ), 2, 3, 1] 3 ≠ 0
    exact wM_w_ne_zero
  exact ⟨hinv, hw, unproject_project_roundtrip wVT ![1, 2, 3] true hinv hw⟩

/-- Concrete constructor arguments with an unrecognized orbit axis. -/
def axisXArgs : OrbitViewportArgs :=
  { width := 1, height := 1, distance := 10, orbitAxis := "X" }

/-- C5 counterexample: constructing an OrbitViewport with orbitAxis given as
the unrecognized value X completes construction successfully instead of
failing with InvalidArgument. -/
theorem orbitAxis_X_construction_succeeds :
    (mkOrbitViewportExc axisXArgs).isOk = true := rfl

/-- C5 amended: the constructor performs no validation of orbitAxis:
construction always succeeds, and any orbitAxis value other than Z (for
example X) is treated exactly like Y, producing the same view and projection
matrices. -/
theorem orbitAxis_nonZ_treated_as_Y (a : OrbitViewportArgs)
    (h : a.orbitAxis ≠ "Z") :
    (mkOrbitViewportExc a).isOk = true ∧
    (mkOrbitViewport a).viewMatrix =
      (mkOrbitViewport { a with orbitAxis := "Y" }).viewMatrix ∧
    (mkOrbitViewport a).projectionMatrix =
      (mkOrbitViewport { a with orbitAxis := "Y" }).projectionMatrix := by
  refine ⟨rfl, ?_, rfl⟩
  simp only [mkOrbitViewport]
  rw [if_neg h, if_neg (by decide : ¬ ("Y" : String) = "Z")]

/-- C5 amended witness: the amended statement instantiated at the concrete
arguments with orbitAxis X. -/
theorem orbitAxis_nonZ_witness :
    axisXArgs.orbitAxis ≠ "Z" ∧
    ((mkOrbitViewportExc axisXArgs).isOk = true ∧
    (mkOrbitViewport axisXArgs).viewMatrix =
      (mkOrbitViewport { axisXArgs with orbitAxis := "Y" }).viewMatrix ∧
    (mkOrbitViewport axisXArgs).projectionMatrix =
      (mkOrbitViewport { axisXArgs with orbitAxis := "Y" }).projectionMatrix) :=
  ⟨by decide, orbitAxis_nonZ_treated_as_Y axisXArgs (by decide)⟩

/-! ### Orchestration fixtures for concrete runs -/

/-- An empty GPU parameter store. -/
def emptyState : GPUState := fun _ => none

/-- A draw operation that always succeeds and leaves the state alone. -/
def okDraw : ParamList → GPUState → GPUState × Option ℕ := fun _ s => (s, none)

/-- A layer fixture with the given visibility and pickability, primitive
(non-composite), no custom parameters, and a succeeding draw operation. -/
def mkTestLayer (vis pick : Bool) : Layer ℕ :=
  { props := { visible := vis, pickable := pick, parameters := none }
    isComposite := false
    draw := okDraw }

/-- The three-layer scenario of the claim: one invisible layer, one visible
unpickable layer, one visible pickable layer. -/
def threeLayers : List (Layer ℕ) :=
  [mkTestLayer false true, mkTestLayer true false, mkTestLayer true true]

/-- A concrete viewport rectangle. -/
def testVP : VPRect := { x := 0, y := 0, width := 100, height := 100 }

/-- Helper for the iteration lemmas: the successful-draw hypothesis for every
layer of a list. -/
def DrawsSucceed {E : Type} (layers : List (Layer E)) : Prop :=
  ∀ l ∈ layers, ∀ lp s', (l.draw lp s').2 = none

/-- Unfolding lemma: the iteration on a non-eligible layer only counts it and
moves on. -/
theorem runLayers_cons_skip {E : Type} {picking : Bool}
    {f : Option (Layer E → VPRect → Bool → Bool)} {vp : VPRect} {glv : PValue}
    {ps : ParamList} {l : Layer E} {rest : List (Layer E)} {idx : ℕ}
    {st : RenderStats} {s : GPUState}
    (hsd : shouldDrawLayer picking f vp l = false) :
    runLayers picking f vp glv ps (l :: rest) idx st s =
      runLayers picking f vp glv ps rest (idx + 1) (countStats false l st) s := by
  simp only [runLayers, hsd, Bool.false_eq_true, if_false]

/-- Unfolding lemma: the iteration on an eligible layer whose draw succeeds
counts it, records its draw event, and continues on the state left by the
scoped draw. -/
theorem runLayers_cons_drawn_ok {E : Type} {picking : Bool}
    {f : Option (Layer E → VPRect → Bool → Bool)} {vp : VPRect} {glv : PValue}
    {ps : ParamList} {l : Layer E} {rest : List (Layer E)} {idx : ℕ}
    {st : RenderStats} {s : GPUState}
    (hsd : shouldDrawLayer picking f vp l = true)
    (hdraw : (withParameters (layerParameters l idx picking glv ps)
      (l.draw (layerParameters l idx picking glv ps)) s).2 = none) :
    runLayers picking f vp glv ps (l :: rest) idx st s =
      ⟨(runLayers picking f vp glv ps rest (idx + 1)
          (countVisible l (countStats true l st))
          (withParameters (layerParameters l idx picking glv ps)
            (l.draw (layerParameters l idx picking glv ps)) s).1).stats,
        ⟨idx, layerParameters l idx picking glv ps⟩ ::
          (runLayers picking f vp glv ps rest (idx + 1)
            (countVisible l (countStats true l st))
            (withParameters (layerParameters l idx picking glv ps)
              (l.draw (layerParameters l idx picking glv ps)) s).1).events,
        (runLayers picking f vp glv ps rest (idx + 1)
          (countVisible l (countStats true l st))
          (withParameters (layerParameters l idx picking glv ps)
            (l.draw (layerParameters l idx picking glv ps)) s).1).state,
        (runLayers picking f vp glv ps rest (idx + 1)
          (countVisible l (countStats true l st))
          (withParameters (layerParameters l idx picking glv ps)
            (l.draw (layerParameters l idx picking glv ps)) s).1).err⟩ := by
  simp only [runLayers, hsd, if_true, hdraw]

/-- Unfolding lemma: the iteration on an eligible layer whose draw fails
stops right there, reporting the failure and the state left by the scoped
draw. -/
theorem runLayers_cons_drawn_err {E : Type} {picking : Bool}
    {f : Option (Layer E → VPRect → Bool → Bool)} {vp : VPRect} {glv : PValue}
    {ps : ParamList} {l : Layer E} {rest : List (Layer E)} {idx : ℕ}
    {st : RenderStats} {s : GPUState} {e : E}
    (hsd : shouldDrawLayer picking f vp l = true)
    (hdraw : (withParameters (layerParameters l idx picking glv ps)
      (l.draw (layerParameters l idx picking glv ps)) s).2 = some e) :
    runLayers picking f vp glv ps (l :: rest) idx st s =
      ⟨countVisible l (countStats true l st),
        [⟨idx, layerParameters l idx picking glv ps⟩],
        (withParameters (layerParameters l idx picking glv ps)
          (l.draw (layerParameters l idx picking glv ps)) s).1,
        some e⟩ := by
  simp only [runLayers, hsd, if_true, hdraw]

/-- When every draw succeeds, the layer iteration reports no error and its
event trace carries exactly the indices of the eligible layers, in list
order. -/
theorem runLayers_events_of_success {E : Type} (picking : Bool)
    (f : Option (Layer E → VPRect → Bool → Bool)) (vp : VPRect)
    (glv : PValue) (ps : ParamList) (layers : List (Layer E)) (idx : ℕ)
    (st : RenderStats) (s : GPUState) (h : DrawsSucceed layers) :
    (runLayers picking f vp glv ps layers idx st s).err = none ∧
    (runLayers picking f vp glv ps layers idx st s).events.map DrawEvent.layerIndex =
      ((List.enumFrom idx layers).filter
        (fun p => shouldDrawLayer picking f vp p.2)).map Prod.fst := by
  induction layers generalizing idx st s with
  | nil => exact ⟨rfl, rfl⟩
  | cons l rest ih =>
    have hl : ∀ lp s', (l.draw lp s').2 = none := h l (by simp)
    have hrest : DrawsSucceed rest := fun l' hl' => h l' (by simp [hl'])
    by_cases hsd : shouldDrawLayer picking f vp l
    · rw [runLayers_cons_drawn_ok hsd (hl _ _)]
      have hrec := ih (idx + 1) (countVisible l (countStats true l st))
        (withParameters (layerParameters l idx picking glv ps)
          (l.draw (layerParameters l idx picking glv ps)) s).1 hrest
      refine ⟨hrec.1, ?_⟩
      simp only [List.enumFrom, List.filter_cons, hsd, if_true, List.map_cons]
      exact congrArg (List.cons idx) hrec.2
    · rw [runLayers_cons_skip (by simpa using hsd)]
      have hrec := ih (idx + 1) (countStats false l st) s hrest
      refine ⟨hrec.1, ?_⟩
      simp only [List.enumFrom, List.filter_cons]
      rw [if_neg (by simpa using hsd)]
      exact hrec.2

/-- C1: in drawLayersInViewport a layer is drawn iff it is visible, and on a
picking pass pickable, and accepted by the layer filter (which receives the
layer, the viewport and the picking flag) when one is supplied; the drawn
indices are exactly the eligible indices of the layer list in order. -/
theorem drawLayersInViewport_draw_condition {E : Type} (canvas : Option ℚ)
    (udpr : Bool) (dpr : Option ℚ) (vp : VPRect) (picking : Bool)
    (ps : ParamList) (f : Option (Layer E → VPRect → Bool → Bool))
    (layers : List (Layer E)) (s : GPUState) (h : DrawsSucceed layers) :
    (∀ L : Layer E, shouldDrawLayer picking f vp L =
      (L.props.visible && (!picking || L.props.pickable) &&
        (match f with | some g => g L vp picking | none => true))) ∧
    (drawLayersInViewport canvas udpr dpr vp picking ps f layers s).events.map
        DrawEvent.layerIndex =
      ((List.enumFrom 0 layers).filter
        (fun p => shouldDrawLayer picking f vp p.2)).map Prod.fst := by
  constructor
  · intro L
    rcases f with _ | g <;>
      cases hv : L.props.visible <;> cases picking <;>
      cases hp : L.props.pickable <;>
      simp [shouldDrawLayer, hv, hp]
  · exact (runLayers_events_of_success picking f vp _ ps layers 0 _ _ h).2

/-- C1 witness: on the three-layer scenario a picking pass draws exactly the
third layer (index 2) and a normal pass draws exactly the second and third
(indices 1 and 2). -/
theorem drawLayersInViewport_draw_condition_witness :
    DrawsSucceed threeLayers ∧
    (drawLayersInViewport none true none testVP true [] none threeLayers
      emptyState).events.map DrawEvent.layerIndex = [2] ∧
    (drawLayersInViewport none true none testVP false [] none threeLayers
      emptyState).events.map DrawEvent.layerIndex = [1, 2] := by
  have hok : DrawsSucceed threeLayers := by
    intro l hl lp s'
    fin_cases hl <;> rfl
  refine ⟨hok, ?_, ?_⟩
  · rw [(drawLayersInViewport_draw_condition none true none testVP true [] none
      threeLayers emptyState hok).2]
    decide
  · rw [(drawLayersInViewport_draw_condition none true none testVP false [] none
      threeLayers emptyState hok).2]
    decide

/-- When the iteration completes without a draw failure, the final statistics
are the starting statistics plus, per counter, the number of layers
satisfying the counter's predicate. -/
theorem runLayers_stats_of_success {E : Type} (picking : Bool)
    (f : Option (Layer E → VPRect → Bool → Bool)) (vp : VPRect)
    (glv : PValue) (ps : ParamList) (layers : List (Layer E)) (idx : ℕ)
    (st : RenderStats) (s : GPUState)
    (h : (runLayers picking f vp glv ps layers idx st s).err = none) :
    (runLayers picking f vp glv ps layers idx st s).stats =
      { totalCount := st.totalCount
        visibleCount := st.visibleCount +
          layers.countP (fun l => shouldDrawLayer picking f vp l && !l.isComposite)
        compositeCount := st.compositeCount +
          layers.countP (fun l => l.isComposite)
        pickableCount := st.pickableCount +
          layers.countP (fun l => shouldDrawLayer picking f vp l && l.props.pickable) } := by
  induction layers generalizing idx st s with
  | nil => simp [runLayers]
  | cons l rest ih =>
    by_cases hsd : shouldDrawLayer picking f vp l
    · cases hdw : (withParameters (layerParameters l idx picking glv ps)
        (l.draw (layerParameters l idx picking glv ps)) s).2 with
      | some e =>
        rw [runLayers_cons_drawn_err hsd hdw] at h
        simp at h
      | none =>
        rw [runLayers_cons_drawn_ok hsd hdw] at h ⊢
        have hrec := ih (idx + 1) (countVisible l (countStats true l st))
          (withParameters (layerParameters l idx picking glv ps)
            (l.draw (layerParameters l idx picking glv ps)) s).1 h
        refine hrec.trans ?_
        cases hcomp : l.isComposite <;> cases hpick : l.props.pickable <;>
          (ext <;>
            simp [countStats, countVisible, List.countP_cons, hsd, hcomp, hpick]) <;>
          omega
    · rw [runLayers_cons_skip (by simpa using hsd)] at h ⊢
      have hrec := ih (idx + 1) (countStats false l st) s h
      refine hrec.trans ?_
      ext <;>
        simp [countStats, List.countP_cons, hsd, Bool.false_and]
      omega

/-- C7 amended: the statistics created at the start of a per-viewport layer
iteration have totalCount equal to the number of layers in the list (not
zero) and the other three counters zero; after an iteration that completes
without a draw failure, pickableCount is the number of drawable-eligible and
pickable layers, compositeCount the number of composite layers, and
visibleCount the number of drawn non-composite layers. -/
theorem renderStats_after_iteration {E : Type} (canvas : Option ℚ)
    (udpr : Bool) (dpr : Option ℚ) (vp : VPRect) (picking : Bool)
    (ps : ParamList) (f : Option (Layer E → VPRect → Bool → Bool))
    (layers : List (Layer E)) (s : GPUState)
    (h : (drawLayersInViewport canvas udpr dpr vp picking ps f layers s).err = none) :
    initRenderStats layers = RenderStats.mk layers.length 0 0 0 ∧
    (drawLayersInViewport canvas udpr dpr vp picking ps f layers s).stats =
      RenderStats.mk layers.length
        (layers.countP (fun l => shouldDrawLayer picking f vp l && !l.isComposite))
        (layers.countP (fun l => l.isComposite))
        (layers.countP (fun l => shouldDrawLayer picking f vp l && l.props.pickable)) := by
  refine ⟨rfl, ?_⟩
  have hstats := runLayers_stats_of_success picking f vp
    (glViewportOf canvas udpr dpr vp) ps layers 0 (initRenderStats layers)
    (applyParams ps s) h
  exact hstats.trans (by simp [initRenderStats])

/-- C7 counterexample: the statistics at the start of the layer iteration for
the concrete three-layer list have totalCount three, not zero, so not all
four counters are reset to zero at the start of the iteration. -/
theorem totalCount_not_reset_to_zero :
    (initRenderStats threeLayers).totalCount ≠ 0 := by decide

/-- C7 amended witness: the amended statement instantiated at a concrete
error-free normal-pass run over the three-layer scenario, where the final
statistics are three total, two visible, zero composite and one pickable. -/
theorem renderStats_after_iteration_witness :
    ((drawLayersInViewport none true none testVP false [] none threeLayers
      emptyState).err = none) ∧
    (drawLayersInViewport none true none testVP false [] none threeLayers
      emptyState).stats = RenderStats.mk 3 2 0 1 := by
  have herr : (drawLayersInViewport none true none testVP false [] none
      threeLayers emptyState).err = none := by decide
  refine ⟨herr, ?_⟩
  refine (renderStats_after_iteration none true none testVP false [] none
    threeLayers emptyState herr).2.trans ?_
  decide

/-- First-match lookup distributes over list append. -/
theorem alookup_append {β : Type} (k : String) (xs ys : List (String × β)) :
    alookup k (xs ++ ys) =
      match alookup k xs with
      | some v => some v
      | none => alookup k ys := by
  induction xs with
  | nil => simp [alookup]
  | cons p rest ih =>
    by_cases hk : k = p.1
    · simp [alookup, hk]
    · simp only [List.cons_append, alookup, if_neg hk]
      exact ih

/-- Every event produced by a picking-pass iteration carries a blend color
binding encoding the event's layer index plus one over 255 in the alpha
channel. -/
theorem runLayers_picking_blendColor {E : Type}
    (f : Option (Layer E → VPRect → Bool → Bool)) (vp : VPRect) (glv : PValue)
    (ps : ParamList) (layers : List (Layer E)) (idx : ℕ) (st : RenderStats)
    (s : GPUState) :
    ∀ ev ∈ (runLayers true f vp glv ps layers idx st s).events,
      alookup "blendColor" ev.params =
        some [0, 0, 0, ((ev.layerIndex : ℚ) + 1) / 255] := by
  induction layers generalizing idx st s with
  | nil =>
    intro ev hev
    simp [runLayers] at hev
  | cons l rest ih =>
    intro ev hev
    by_cases hsd : shouldDrawLayer true f vp l
    · cases hdw : (withParameters (layerParameters l idx true glv ps)
        (l.draw (layerParameters l idx true glv ps)) s).2 with
      | some e =>
        rw [runLayers_cons_drawn_err hsd hdw] at hev
        simp only [List.mem_singleton] at hev
        subst hev
        simp [layerParameters, alookup]
      | none =>
        rw [runLayers_cons_drawn_ok hsd hdw] at hev
        simp only [List.mem_cons] at hev
        rcases hev with rfl | hev
        · simp [layerParameters, alookup]
        · exact ih _ _ _ ev hev
    · rw [runLayers_cons_skip (by simpa using hsd)] at hev
      exact ih _ _ _ ev hev

/-- C4 amended: in a picking pass, the blend color passed to a drawn layer
encodes in its alpha channel the layer's zero-based index in the full input
layer list plus one, over 255 (index zero reserved for no hit); layers
skipped by the eligibility test leave gaps in the encoding rather than
compacting it. -/
theorem pickingBlendColor_encodes_list_index {E : Type} (canvas : Option ℚ)
    (udpr : Bool) (dpr : Option ℚ) (vp : VPRect) (ps : ParamList)
    (f : Option (Layer E → VPRect → Bool → Bool)) (layers : List (Layer E))
    (s : GPUState) (ev : DrawEvent)
    (hev : ev ∈ (drawLayersInViewport canvas udpr dpr vp true ps f layers
      s).events) :
    alookup "blendColor" ev.params =
      some [0, 0, 0, ((ev.layerIndex : ℚ) + 1) / 255] :=
  runLayers_picking_blendColor f vp (glViewportOf canvas udpr dpr vp) ps layers
    0 (initRenderStats layers) (applyParams ps s) ev hev

/-- C4 counterexample: in a picking pass over a single visible pickable layer
the first (and only) drawn layer receives blend color alpha 1 over 255, but
the claim predicts (1 + 1) over 255 for the first drawn layer under its
one-based indexing; the two values differ. -/
theorem pickingBlendColor_claim_counterexample :
    ((drawLayersInViewport none true none testVP true [] none
      [mkTestLayer true true] emptyState).events.map
        (fun ev => alookup "blendColor" ev.params)) =
      [some [0, 0, 0, (1 : ℚ) / 255]] ∧
    some [(0 : ℚ), 0, 0, (1 : ℚ) / 255] ≠ some [(0 : ℚ), 0, 0, ((1 : ℚ) + 1) / 255] := by
  constructor
  · norm_num [drawLayersInViewport, glViewportOf, getGLViewport, getPixelRatio,
      initRenderStats, runLayers, shouldDrawLayer, mkTestLayer, okDraw,
      withParameters, layerParameters, alookup, applyParams]
  · simp only [ne_eq, Option.some.injEq, List.cons.injEq]
    norm_num

/-- The concrete drawn event of the two-layer picking run used as the C4
amended witness: the second layer of the list is the only drawn one, so its
event has layer index 1. -/
def c4ev : DrawEvent :=
  ⟨1, layerParameters (mkTestLayer true true) 1 true
    (glViewportOf none true none testVP) []⟩

/-- C4 amended witness: in a picking run over an invisible layer followed by
a visible pickable one, the drawn event for the second layer (index 1) has
blend color alpha (1 + 1) over 255. -/
theorem pickingBlendColor_encodes_list_index_witness :
    c4ev ∈ (drawLayersInViewport none true none testVP true [] none
      [mkTestLayer false true, mkTestLayer true true] emptyState).events ∧
    alookup "blendColor" c4ev.params =
      some [0, 0, 0, ((c4ev.layerIndex : ℚ) + 1) / 255] := by
  have hmem : c4ev ∈ (drawLayersInViewport none true none testVP true [] none
      [mkTestLayer false true, mkTestLayer true true] emptyState).events := by
    simp [c4ev, drawLayersInViewport, glViewportOf, getGLViewport, getPixelRatio,
      initRenderStats, runLayers, shouldDrawLayer, mkTestLayer, okDraw,
      withParameters, applyParams]
  exact ⟨hmem, pickingBlendColor_encodes_list_index none true none testVP []
    none [mkTestLayer false true, mkTestLayer true true] emptyState c4ev hmem⟩

/-- C10: in the per-layer parameter resolution, a key bound both in the
layer's own parameters and in the pass-level parameters resolves to the
pass-level value, except that the viewport key is always overwritten with the
device-pixel rectangle and, on a picking pass, the blend color key is
overwritten last with the encoded layer index, overriding both layer-level
and pass-level bindings. -/
theorem layerParameters_precedence {E : Type} (layer : Layer E) (idx : ℕ)
    (picking : Bool) (glv : PValue) (passP : ParamList) :
    (∀ k v w, k ≠ "viewport" → (picking = true → k ≠ "blendColor") →
      alookup k (layer.props.parameters.getD []) = some v →
      alookup k passP = some w →
      alookup k (layerParameters layer idx picking glv passP) = some w) ∧
    alookup "viewport" (layerParameters layer idx picking glv passP) = some glv ∧
    (picking = true →
      alookup "blendColor" (layerParameters layer idx picking glv passP) =
        some [0, 0, 0, ((idx : ℚ) + 1) / 255]) := by
  refine ⟨?_, ?_, ?_⟩
  · intro k v w hkv hkb _ hkp
    cases picking with
    | false =>
      simp only [layerParameters, Bool.false_eq_true, if_false, alookup,
        if_neg hkv, alookup_append, hkp]
    | true =>
      simp only [layerParameters, if_true, alookup, if_neg (hkb rfl),
        if_neg hkv, alookup_append, hkp]
  · cases picking with
    | false => simp [layerParameters, alookup]
    | true => simp [layerParameters, alookup]
  · intro hp
    subst hp
    simp [layerParameters, alookup]

/-- A layer fixture with a custom parameter map binding depthTest, for the
parameter-precedence witness. -/
def c10layer : Layer ℕ :=
  { props :=
      { visible := true, pickable := true
        parameters := some [("depthTest", [7])] }
    isComposite := false
    draw := okDraw }

/-- Pass-level parameters for the parameter-precedence witness, binding the
same depthTest key to a different value. -/
def c10pass : ParamList := [("depthTest", [8]), ("blend", [1])]

/-- C10 witness: on a picking pass, the shared depthTest key resolves to the
pass-level value 8, the viewport key resolves to the device rectangle, and
the blend color key resolves to the picking encoding for layer index 0. -/
theorem layerParameters_precedence_witness :
    ("depthTest" ≠ "viewport") ∧
    alookup "depthTest" (c10layer.props.parameters.getD []) = some [7] ∧
    alookup "depthTest" c10pass = some [8] ∧
    alookup "depthTest" (layerParameters c10layer 0 true [1, 2, 3, 4] c10pass) =
      some [8] ∧
    alookup "viewport" (layerParameters c10layer 0 true [1, 2, 3, 4] c10pass) =
      some [1, 2, 3, 4] ∧
    alookup "blendColor" (layerParameters c10layer 0 true [1, 2, 3, 4] c10pass) =
      some [0, 0, 0, (((0 : ℕ) : ℚ) + 1) / 255] :=
  ⟨by decide, rfl, rfl,
    (layerParameters_precedence c10layer 0 true [1, 2, 3, 4] c10pass).1
      "depthTest" [7] [8] (by decide) (fun _ => by decide) rfl rfl,
    (layerParameters_precedence c10layer 0 true [1, 2, 3, 4] c10pass).2.1,
    (layerParameters_precedence c10layer 0 true [1, 2, 3, 4] c10pass).2.2 rfl⟩

/-- When the iteration over a first segment completes without failure,
iterating the concatenation first runs the segment and then continues from
its final statistics and state, concatenating the event traces. -/
theorem runLayers_append {E : Type} (picking : Bool)
    (f : Option (Layer E → VPRect → Bool → Bool)) (vp : VPRect) (glv : PValue)
    (ps : ParamList) (xs ys : List (Layer E)) (idx : ℕ) (st : RenderStats)
    (s : GPUState)
    (h : (runLayers picking f vp glv ps xs idx st s).err = none) :
    runLayers picking f vp glv ps (xs ++ ys) idx st s =
      ⟨(runLayers picking f vp glv ps ys (idx + xs.length)
          (runLayers picking f vp glv ps xs idx st s).stats
          (runLayers picking f vp glv ps xs idx st s).state).stats,
        (runLayers picking f vp glv ps xs idx st s).events ++
          (runLayers picking f vp glv ps ys (idx + xs.length)
            (runLayers picking f vp glv ps xs idx st s).stats
            (runLayers picking f vp glv ps xs idx st s).state).events,
        (runLayers picking f vp glv ps ys (idx + xs.length)
          (runLayers picking f vp glv ps xs idx st s).stats
          (runLayers picking f vp glv ps xs idx st s).state).state,
        (runLayers picking f vp glv ps ys (idx + xs.length)
          (runLayers picking f vp glv ps xs idx st s).stats
          (runLayers picking f vp glv ps xs idx st s).state).err⟩ := by
  induction xs generalizing idx st s with
  | nil => simp [runLayers]
  | cons l xs ih =>
    have hlen : idx + 1 + xs.length = idx + (xs.length + 1) := by omega
    by_cases hsd : shouldDrawLayer picking f vp l
    · cases hdw : (withParameters (layerParameters l idx picking glv ps)
        (l.draw (layerParameters l idx picking glv ps)) s).2 with
      | some e =>
        rw [runLayers_cons_drawn_err hsd hdw] at h
        simp at h
      | none =>
        rw [runLayers_cons_drawn_ok hsd hdw] at h
        rw [List.cons_append, runLayers_cons_drawn_ok hsd hdw,
          runLayers_cons_drawn_ok hsd hdw,
          ih (idx + 1) (countVisible l (countStats true l st))
            (withParameters (layerParameters l idx picking glv ps)
              (l.draw (layerParameters l idx picking glv ps)) s).1 h]
        simp [hlen]
    · rw [runLayers_cons_skip (by simpa using hsd)] at h
      rw [List.cons_append, runLayers_cons_skip (by simpa using hsd),
        runLayers_cons_skip (by simpa using hsd),
        ih (idx + 1) (countStats false l st) s h]
      simp [hlen]

/-- Every event of the iteration refers to a layer index below the starting
index plus the number of layers. -/
theorem runLayers_events_indices_lt {E : Type} (picking : Bool)
    (f : Option (Layer E → VPRect → Bool → Bool)) (vp : VPRect) (glv : PValue)
    (ps : ParamList) (layers : List (Layer E)) (idx : ℕ) (st : RenderStats)
    (s : GPUState) :
    ∀ ev ∈ (runLayers picking f vp glv ps layers idx st s).events,
      ev.layerIndex < idx + layers.length := by
  induction layers generalizing idx st s with
  | nil =>
    intro ev hev
    simp [runLayers] at hev
  | cons l rest ih =>
    intro ev hev
    by_cases hsd : shouldDrawLayer picking f vp l
    · cases hdw : (withParameters (layerParameters l idx picking glv ps)
        (l.draw (layerParameters l idx picking glv ps)) s).2 with
      | some e =>
        rw [runLayers_cons_drawn_err hsd hdw] at hev
        simp only [List.mem_singleton] at hev
        subst hev
        simp
      | none =>
        rw [runLayers_cons_drawn_ok hsd hdw] at hev
        simp only [List.mem_cons] at hev
        rcases hev with rfl | hev
        · simp
        · have := ih (idx + 1) (countVisible l (countStats true l st))
            (withParameters (layerParameters l idx picking glv ps)
              (l.draw (layerParameters l idx picking glv ps)) s).1 ev hev
          simp only [List.length_cons]
          omega
    · have := ih (idx + 1) (countStats false l st) s ev
        (by rwa [runLayers_cons_skip (by simpa using hsd)] at hev)
      simp only [List.length_cons]
      omega

/-- Saving the current values of the keys of a parameter list produces a list
whose lookup, on any key the parameter list binds, is the current value of
that key. -/
theorem alookup_save (ps : ParamList) (s : GPUState) (k : String) :
    alookup k (ps.map (fun p => (p.1, s p.1))) =
      (alookup k ps).map (fun _ => s k) := by
  induction ps with
  | nil => simp [alookup]
  | cons p rest ih =>
    by_cases hk : k = p.1
    · subst hk
      simp [alookup]
    · simp only [List.map_cons, alookup, if_neg hk]
      exact ih

/-- Scoped parameter application restores every key it set to its previous
value, regardless of what the callback did to the state and of whether it
failed. -/
theorem withParameters_restores {E : Type} (ps : ParamList)
    (cb : GPUState → GPUState × Option E) (s : GPUState) (k : String)
    (hk : (alookup k ps).isSome) :
    (withParameters ps cb s).1 k = s k := by
  simp only [withParameters, restoreParams, alookup_save]
  cases h : alookup k ps with
  | none => rw [h] at hk; simp at hk
  | some v => simp

/-- C8: when a layer's draw operation raises, the orchestrator does not
intercept the failure: the per-viewport draw reports exactly that failure, no
layer after the failing one is drawn (every draw event has index at most the
failing layer's index), the failure propagates unchanged to the caller of
drawLayers, and the scoped parameter application still restores the
parameters applied for the failing layer to their values from before its
draw. -/
theorem drawFailure_propagates {E : Type} (canvas : Option ℚ) (udpr : Bool)
    (dpr : Option ℚ) (vp : VPRect) (picking : Bool) (ps : ParamList)
    (f : Option (Layer E → VPRect → Bool → Bool)) (pre post : List (Layer E))
    (lf : Layer E) (s0 : GPUState) (e : E)
    (hpre : (runLayers picking f vp (glViewportOf canvas udpr dpr vp) ps pre 0
      (initRenderStats (pre ++ lf :: post)) (applyParams ps s0)).err = none)
    (hsd : shouldDrawLayer picking f vp lf = true)
    (hfail : ∀ lp s', (lf.draw lp s').2 = some e) :
    (drawLayersInViewport canvas udpr dpr vp picking ps f (pre ++ lf :: post)
      s0).err = some e ∧
    (∀ ev ∈ (drawLayersInViewport canvas udpr dpr vp picking ps f
        (pre ++ lf :: post) s0).events, ev.layerIndex ≤ pre.length) ∧
    (drawLayers canvas udpr dpr picking ps f (pre ++ lf :: post) [vp] s0).2 =
      some e ∧
    (∀ k, (alookup k (layerParameters lf pre.length picking
        (glViewportOf canvas udpr dpr vp) ps)).isSome →
      (drawLayersInViewport canvas udpr dpr vp picking ps f (pre ++ lf :: post)
        s0).state k =
      (runLayers picking f vp (glViewportOf canvas udpr dpr vp) ps pre 0
        (initRenderStats (pre ++ lf :: post)) (applyParams ps s0)).state k) := by
  have hdw : (withParameters
      (layerParameters lf (0 + pre.length) picking
        (glViewportOf canvas udpr dpr vp) ps)
      (lf.draw (layerParameters lf (0 + pre.length) picking
        (glViewportOf canvas udpr dpr vp) ps))
      ((runLayers picking f vp (glViewportOf canvas udpr dpr vp) ps pre 0
        (initRenderStats (pre ++ lf :: post)) (applyParams ps s0)).state)).2 =
      some e := hfail _ _
  have hmain : drawLayersInViewport canvas udpr dpr vp picking ps f
      (pre ++ lf :: post) s0 =
      runLayers picking f vp (glViewportOf canvas udpr dpr vp) ps
        (pre ++ lf :: post) 0 (initRenderStats (pre ++ lf :: post))
        (applyParams ps s0) := rfl
  have happ := runLayers_append picking f vp (glViewportOf canvas udpr dpr vp)
    ps pre (lf :: post) 0 (initRenderStats (pre ++ lf :: post))
    (applyParams ps s0) hpre
  rw [runLayers_cons_drawn_err hsd hdw] at happ
  rw [hmain, happ]
  simp only [Nat.zero_add]
  refine ⟨trivial, ?_, ?_, ?_⟩
  · intro ev hev
    simp only [List.mem_append, List.mem_singleton] at hev
    rcases hev with hev | rfl
    · have := runLayers_events_indices_lt picking f vp
        (glViewportOf canvas udpr dpr vp) ps pre 0
        (initRenderStats (pre ++ lf :: post)) (applyParams ps s0) ev hev
      omega
    · simp
  · show (match (runLayers picking f vp (glViewportOf canvas udpr dpr vp) ps
        (pre ++ lf :: post) 0 (initRenderStats (pre ++ lf :: post))
        (applyParams ps s0)).err with
      | some err =>
        ((runLayers picking f vp (glViewportOf canvas udpr dpr vp) ps
          (pre ++ lf :: post) 0 (initRenderStats (pre ++ lf :: post))
          (applyParams ps s0)).state, some err)
      | none =>
        drawLayers canvas udpr dpr picking ps f (pre ++ lf :: post) []
          (runLayers picking f vp (glViewportOf canvas udpr dpr vp) ps
            (pre ++ lf :: post) 0 (initRenderStats (pre ++ lf :: post))
            (applyParams ps s0)).state).2 = some e
    rw [happ]
  · intro k hk
    exact withParameters_restores _ _ _ k hk

/-- A layer fixture whose draw operation always fails with error 7. -/
def failLayer : Layer ℕ :=
  { props := { visible := true, pickable := true, parameters := none }
    isComposite := false
    draw := fun _ s => (s, some 7) }

/-- C8 witness: in a run over a succeeding layer, then the failing layer,
then another succeeding layer, the per-viewport draw and the drawLayers entry
point both report exactly the failure of the failing layer. -/
theorem drawFailure_propagates_witness :
    ((runLayers false none testVP (glViewportOf none true none testVP) []
      [mkTestLayer true true] 0
      (initRenderStats ([mkTestLayer true true] ++ failLayer ::
        [mkTestLayer true true])) (applyParams [] emptyState)).err = none) ∧
    shouldDrawLayer false none testVP failLayer = true ∧
    (drawLayersInViewport none true none testVP false [] none
      ([mkTestLayer true true] ++ failLayer :: [mkTestLayer true true])
      emptyState).err = some 7 ∧
    (drawLayers none true none false [] none
      ([mkTestLayer true true] ++ failLayer :: [mkTestLayer true true])
      [testVP] emptyState).2 = some 7 := by
  have hpre : (runLayers false none testVP (glViewportOf none true none testVP)
      [] [mkTestLayer true true] 0
      (initRenderStats ([mkTestLayer true true] ++ failLayer ::
        [mkTestLayer true true])) (applyParams [] emptyState)).err = none := by
    decide
  have hsd : shouldDrawLayer false none testVP failLayer = true := by decide
  have hfail : ∀ lp s', (failLayer.draw lp s').2 = some 7 := fun _ _ => rfl
  have hmain := drawFailure_propagates none true none testVP false [] none
    [mkTestLayer true true] [mkTestLayer true true] failLayer emptyState 7
    hpre hsd hfail
  exact ⟨hpre, hsd, hmain.1, hmain.2.2.1⟩

end DeckGL
